import Mathlib

/-!
Verification development for the Canon EOS capture pipeline
(`src/canon-camera.c`, `src/video-source.c`).

The C sources are shallowly embedded: each C function that the properties
below talk about becomes a Lean function over an explicit state record.
Calls into the external libraries (libgphoto2, libjpeg) are modelled by
oracle records carrying the integer return codes / decoded image metadata
that the library hands back; everything the code of the repository itself does with
those results is translated faithfully.
-/

namespace CanonEOS

/-- Error taxonomy from `canon-errors.h`. -/
inductive canon_error_t where
  | CANON_SUCCESS
  | CANON_ERROR_NO_DEVICE
  | CANON_ERROR_USB_INIT
  | CANON_ERROR_MEMORY
  | CANON_ERROR_INVALID_PARAM
  | CANON_ERROR_CAMERA_BUSY
  | CANON_ERROR_NOT_SUPPORTED
  | CANON_ERROR_TIMEOUT
  | CANON_ERROR_DISCONNECTED
  | CANON_ERROR_PERMISSION
  | CANON_ERROR_UNKNOWN
  deriving DecidableEq, Repr

/-- `GP_OK` from libgphoto2: non-negative return codes are successes. -/
def GP_OK : Int := 0

def GP_ERROR_BAD_PARAMETERS : Int := -2

def GP_ERROR_NO_MEMORY : Int := -3

def GP_ERROR_NOT_SUPPORTED : Int := -6

def GP_ERROR_TIMEOUT : Int := -10

def GP_ERROR_CAMERA_BUSY : Int := -110

/-- `error_from_gphoto` from `utils/error-handling.c`: maps a libgphoto2
return code into the error taxonomy of the plugin. -/
def error_from_gphoto (err : Int) : canon_error_t :=
  if GP_OK ≤ err then .CANON_SUCCESS
  else if err = GP_ERROR_NO_MEMORY then .CANON_ERROR_MEMORY
  else if err = GP_ERROR_TIMEOUT then .CANON_ERROR_TIMEOUT
  else if err = GP_ERROR_NOT_SUPPORTED then .CANON_ERROR_NOT_SUPPORTED
  else if err = GP_ERROR_BAD_PARAMETERS then .CANON_ERROR_INVALID_PARAM
  else if err = GP_ERROR_CAMERA_BUSY then .CANON_ERROR_CAMERA_BUSY
  else .CANON_ERROR_UNKNOWN

/-- `canon_config_t` from `canon-camera.h`. -/
structure canon_config_t where
  width : Nat
  height : Nat
  fps : Nat
  auto_focus : Bool
  live_view : Bool
  deriving DecidableEq, Repr

/-- `canon_capabilities_t` from `canon-camera.h`. -/
structure canon_capabilities_t where
  max_width : Nat
  max_height : Nat
  min_fps : Nat
  max_fps : Nat
  has_live_view : Bool
  has_auto_focus : Bool
  deriving DecidableEq, Repr

/-- State of a `canon_camera_t` session (`canon-camera.c`).  The gphoto
handles owned by the session (`gphoto_camera`, `abilities_list`,
`port_info_list`) are modelled as acquisition flags so that leak-freedom is
expressible. -/
structure canon_camera_t where
  connected : Bool
  live_view_active : Bool
  device_path : String
  config : canon_config_t
  capabilities : canon_capabilities_t
  hasGpCamera : Bool
  hasAbilitiesList : Bool
  hasPortInfoList : Bool
  frame_count : Nat
  error_count : Nat
  deriving DecidableEq, Repr

/-- State produced by `canon_camera_create`: disconnected, no handles, and
the hard-coded capability snapshot (3840x2160, fps 24..60). -/
def canon_camera_create_state : canon_camera_t :=
  { connected := false
    live_view_active := false
    device_path := ""
    config := { width := 0, height := 0, fps := 0, auto_focus := false, live_view := false }
    capabilities :=
      { max_width := 3840, max_height := 2160, min_fps := 24, max_fps := 60
        has_live_view := true, has_auto_focus := true }
    hasGpCamera := false
    hasAbilitiesList := false
    hasPortInfoList := false
    frame_count := 0
    error_count := 0 }

/-- Return codes of the gphoto calls issued by `canon_camera_connect`, in
program order.  (`gp_abilities_list_lookup_model` is also called, but its
failure only skips applying the ability profile and changes none of the
state modelled here.) -/
structure GpConnectRets where
  camera_new : Int
  abilities_list_new : Int
  abilities_list_load : Int
  port_info_list_new : Int
  port_info_list_load : Int
  camera_init : Int
  deriving DecidableEq, Repr

/-- `canon_camera_connect` from `canon-camera.c`.  Mirrors the C control
flow: busy check first, then the device path / config stores, then the six
gphoto steps, each failure releasing exactly the handles acquired so far in
this call before returning the mapped error. -/
def canon_camera_connect (camera : canon_camera_t) (gp : GpConnectRets)
    (device_path : String) (config : canon_config_t) :
    canon_error_t × canon_camera_t :=
  if camera.connected then (.CANON_ERROR_CAMERA_BUSY, camera)
  else
    let c1 := { camera with device_path := device_path, config := config }
    if gp.camera_new < GP_OK then (error_from_gphoto gp.camera_new, c1)
    else
      let c2 := { c1 with hasGpCamera := true }
      if gp.abilities_list_new < GP_OK then
        (error_from_gphoto gp.abilities_list_new, { c2 with hasGpCamera := false })
      else
        let c3 := { c2 with hasAbilitiesList := true }
        if gp.abilities_list_load < GP_OK then
          (error_from_gphoto gp.abilities_list_load,
           { c3 with hasAbilitiesList := false, hasGpCamera := false })
        else
          if gp.port_info_list_new < GP_OK then
            (error_from_gphoto gp.port_info_list_new,
             { c3 with hasAbilitiesList := false, hasGpCamera := false })
          else
            let c4 := { c3 with hasPortInfoList := true }
            if gp.port_info_list_load < GP_OK then
              (error_from_gphoto gp.port_info_list_load,
               { c4 with
                 hasPortInfoList := false
                 hasAbilitiesList := false
                 hasGpCamera := false })
            else
              if gp.camera_init < GP_OK then
                (error_from_gphoto gp.camera_init,
                 { c4 with
                   hasPortInfoList := false
                   hasAbilitiesList := false
                   hasGpCamera := false })
              else
                (.CANON_SUCCESS, { c4 with connected := true })

/-- `canon_camera_disconnect` from `canon-camera.c`: no-op when already
disconnected, otherwise drops live view, releases all handles and clears
the connected flag. -/
def canon_camera_disconnect (camera : canon_camera_t) : canon_camera_t :=
  if ¬ camera.connected then camera
  else
    { camera with
      live_view_active := false
      hasGpCamera := false
      hasPortInfoList := false
      hasAbilitiesList := false
      connected := false }

/-- Return codes / data of the gphoto calls issued by
`canon_camera_capture_frame`, in program order; `image_size` is the size of
the preview image the device handed back (`gp_file_get_data_and_size`). -/
structure GpCaptureRets where
  file_new : Int
  capture_preview : Int
  get_data : Int
  image_size : Nat
  deriving DecidableEq, Repr

/-- `canon_camera_capture_frame` from `canon-camera.c`.  The second
component is the final value of `*bytes_written` (`none` on paths that
never store to it); the stored value is also the number of bytes `memcpy`
writes into the buffer of the caller. -/
def canon_camera_capture_frame (camera : canon_camera_t) (gp : GpCaptureRets)
    (buffer_size : Nat) : canon_error_t × Option Nat × canon_camera_t :=
  if ¬ camera.connected then (.CANON_ERROR_DISCONNECTED, none, camera)
  else if ¬ camera.live_view_active then (.CANON_ERROR_NOT_SUPPORTED, none, camera)
  else if gp.file_new < GP_OK then (error_from_gphoto gp.file_new, none, camera)
  else if gp.capture_preview < GP_OK then
    (error_from_gphoto gp.capture_preview, none, camera)
  else if gp.get_data < GP_OK then (error_from_gphoto gp.get_data, none, camera)
  else
    let copy_size := if gp.image_size < buffer_size then gp.image_size else buffer_size
    (.CANON_SUCCESS, some copy_size,
     { camera with frame_count := camera.frame_count + 1 })

/-- `FRAME_QUEUE_SIZE` from `video-source.c`. -/
def FRAME_QUEUE_SIZE : Nat := 4

/-- `MAX_FRAME_SIZE` from `video-source.c`: the byte capacity of the
conversion buffer and of the `data[0]` allocation of each frame slot. -/
def MAX_FRAME_SIZE : Nat := 3840 * 2160 * 4

/-- `enum video_format` values used by the plugin (OBS header). -/
inductive video_format where
  | VIDEO_FORMAT_NONE
  | VIDEO_FORMAT_NV12
  | VIDEO_FORMAT_OTHER
  deriving DecidableEq, Repr

/-- `video_format_info_t` from `video-source.h`. -/
structure video_format_info_t where
  width : Nat
  height : Nat
  fps : Nat
  format : video_format
  frame_size : Nat
  deriving DecidableEq, Repr

/-- `frame_buffer_t` from `video-source.c`.  `data[0]` is a fixed,
per-slot allocation whose identity is the slot index, so it is not a
field; `linesize[0]`,`linesize[1]` become `linesize0`,`linesize1`. -/
structure frame_buffer_t where
  width : Nat
  height : Nat
  linesize0 : Nat
  linesize1 : Nat
  timestamp : Nat
  in_use : Bool
  deriving DecidableEq, Repr

/-- State of a `video_source_t` (`video-source.c`).  The `camera` pointer
is modelled by the flag `hasCamera`. -/
structure video_source_t where
  format : video_format_info_t
  frame_queue : Fin FRAME_QUEUE_SIZE → frame_buffer_t
  write_index : Nat
  read_index : Nat
  frame_count : Nat
  active : Bool
  thread_running : Bool
  hasCamera : Bool
  frames_captured : Nat
  frames_dropped : Nat
  last_frame_time : Nat
  deriving DecidableEq

/-- Index into the frame queue; the C code keeps `write_index` and
`read_index` inside `[0, FRAME_QUEUE_SIZE)` by assigning `(i + 1) %
FRAME_QUEUE_SIZE`, so reducing modulo the capacity is the identity on
every reachable value. -/
def qidx (i : Nat) : Fin FRAME_QUEUE_SIZE :=
  ⟨i % FRAME_QUEUE_SIZE, Nat.mod_lt i (by decide)⟩

/-- A frame slot as `video_source_create` leaves it (calloc + explicit
zeroing). -/
def zero_frame_buffer : frame_buffer_t :=
  { width := 0, height := 0, linesize0 := 0, linesize1 := 0
    timestamp := 0, in_use := false }

/-- State produced by `video_source_create`: zeroed queue, indices and
counters, default 1920x1080@30 NV12 format. -/
def video_source_create_state : video_source_t :=
  { format :=
      { width := 1920, height := 1080, fps := 30
        format := .VIDEO_FORMAT_NV12, frame_size := 1920 * 1080 * 3 / 2 }
    frame_queue := fun _ => zero_frame_buffer
    write_index := 0
    read_index := 0
    frame_count := 0
    active := false
    thread_running := false
    hasCamera := false
    frames_captured := 0
    frames_dropped := 0
    last_frame_time := 0 }

/-- `video_source_init` from `video-source.c` (the camera argument is
non-null, modelled by setting `hasCamera`): busy when active, otherwise
stores the format (defaulting `VIDEO_FORMAT_NONE` to NV12, recomputing
`frame_size`), sets the linesizes of every slot and clears every `in_use`
flag. -/
def video_source_init (source : video_source_t) (format : video_format_info_t) :
    canon_error_t × video_source_t :=
  if source.active then (.CANON_ERROR_CAMERA_BUSY, source)
  else
    let fmt0 := if format.format = video_format.VIDEO_FORMAT_NONE
                then { format with format := video_format.VIDEO_FORMAT_NV12 }
                else format
    let fmt := { fmt0 with frame_size := fmt0.width * fmt0.height * 3 / 2 }
    (.CANON_SUCCESS,
     { source with
       format := fmt
       hasCamera := true
       frame_queue := fun k =>
         { source.frame_queue k with
           linesize0 := fmt.width, linesize1 := fmt.width, in_use := false } })

/-- The state after `video_source_create`, `video_source_init fmt` and a
successful `video_source_start` (which only flips `active` and
`thread_running` after live view starts). -/
def started_source (fmt : video_format_info_t) : video_source_t :=
  { (video_source_init video_source_create_state fmt).2 with
    active := true, thread_running := true }

/-- The per-frame data `video_source_get_frame` copies into the supplied
`obs_source_frame`; `slot` stands for the `data[0]` pointer identity of
the slot handed out. -/
structure obs_source_frame where
  width : Nat
  height : Nat
  linesize0 : Nat
  linesize1 : Nat
  timestamp : Nat
  slot : Fin FRAME_QUEUE_SIZE
  deriving DecidableEq, Repr

inductive get_frame_result where
  | err (e : canon_error_t)
  | ok (f : obs_source_frame)
  deriving DecidableEq, Repr

/-- `video_source_get_frame` from `video-source.c`, sequentialized: with
no producer running inside the call, the bounded
`pthread_cond_timedwait` loop on an empty queue ends in `ETIMEDOUT`, so
an empty queue yields `CANON_ERROR_TIMEOUT`.  A slot with zero width or
height is rejected with `CANON_ERROR_UNKNOWN` before being handed out.
On success the slot is marked `in_use`, the read index advances modulo
the capacity and the count drops. -/
def video_source_get_frame (source : video_source_t) :
    get_frame_result × video_source_t :=
  if ¬ source.active then (.err .CANON_ERROR_DISCONNECTED, source)
  else if source.frame_count = 0 then (.err .CANON_ERROR_TIMEOUT, source)
  else
    let ri := qidx source.read_index
    let buffer := source.frame_queue ri
    if buffer.width = 0 ∨ buffer.height = 0 then (.err .CANON_ERROR_UNKNOWN, source)
    else
      (.ok { width := buffer.width, height := buffer.height
             linesize0 := buffer.linesize0, linesize1 := buffer.linesize1
             timestamp := buffer.timestamp, slot := ri },
       { source with
         frame_queue := Function.update source.frame_queue ri
           { buffer with in_use := true }
         read_index := (source.read_index + 1) % FRAME_QUEUE_SIZE
         frame_count := source.frame_count - 1 })

/-- `video_source_release_frame` from `video-source.c`: the slot whose
`data[0]` pointer matches the released frame (slot allocations are
distinct, so the scan finds exactly the handed-out slot) gets its
`in_use` flag cleared. -/
def video_source_release_frame (source : video_source_t)
    (slot : Fin FRAME_QUEUE_SIZE) : video_source_t :=
  { source with
    frame_queue := Function.update source.frame_queue slot
      { source.frame_queue slot with in_use := false } }

/-- Observable actions of `video_source_stop`, in the order the C code
performs them. -/
inductive stop_event where
  | lock
  | clear_active
  | broadcast
  | unlock
  | join_thread
  | stop_live_view
  deriving DecidableEq, Repr

/-- `video_source_stop` from `video-source.c`: returns the ordered trace
of its observable actions together with the final state.  When inactive
it only takes and releases the lock.  Otherwise it clears `active` and
broadcasts under the lock, unlocks, joins the capture thread if it was
running (clearing `thread_running`), and only then deactivates live view
when a camera is attached. -/
def video_source_stop (source : video_source_t) :
    List stop_event × video_source_t :=
  if ¬ source.active then ([.lock, .unlock], source)
  else
    ([stop_event.lock, .clear_active, .broadcast, .unlock]
       ++ (if source.thread_running then [stop_event.join_thread] else [])
       ++ (if source.hasCamera then [stop_event.stop_live_view] else []),
     { source with active := false, thread_running := false })

/-- A compressed preview image as libjpeg sees it: whether
`jpeg_read_header` succeeds, and the embedded (`output_width`,
`output_height`) dimensions it decodes to.  Pixel values are irrelevant
to the properties below. -/
structure JpegImage where
  headerOk : Bool
  width : Nat
  height : Nat
  deriving DecidableEq, Repr

/-- Byte offsets into `nv12_data` written by the Y-plane loop of
`convert_jpeg_to_nv12`: `y_plane[i * actual_width + j]` for `i <
actual_height`, `j < actual_width`. -/
def yWriteOffsets (w h : Nat) : List Nat :=
  (List.range h).flatMap fun i => (List.range w).map fun j => i * w + j

/-- Byte offsets into `nv12_data` written by the UV-plane loop of
`convert_jpeg_to_nv12`: the loop steps `i` and `j` by 2, writes
`uv_plane[uv_row * actual_width + uv_col * 2]` and the following byte,
and `uv_plane` starts `actual_width * actual_height` bytes into
`nv12_data`. -/
def uvWriteOffsets (w h : Nat) : List Nat :=
  (List.range ((h + 1) / 2)).flatMap fun i2 =>
    (List.range ((w + 1) / 2)).flatMap fun j2 =>
      [w * h + i2 * w + j2 * 2, w * h + i2 * w + j2 * 2 + 1]

/-- All byte offsets `convert_jpeg_to_nv12` writes into its destination
on the success path. -/
def convertWriteOffsets (w h : Nat) : List Nat :=
  yWriteOffsets w h ++ uvWriteOffsets w h

/-- The NV12 size the decoded dimensions require,
`actual_width * actual_height * 3 / 2`. -/
def nv12_required_size (w h : Nat) : Nat := w * h * 3 / 2

/-- Result of `convert_jpeg_to_nv12`: the returned error code, the final
values of the `*width`/`*height` out-parameters, and the byte offsets
written into the destination `nv12_data`. -/
structure ConvertOut where
  res : canon_error_t
  width : Nat
  height : Nat
  writes : List Nat
  deriving Repr

/-- `convert_jpeg_to_nv12` from `video-source.c`.  `rgbAllocOk` models
the `malloc` of the intermediate RGB buffer.  The function takes no
destination-capacity parameter and performs no size check: a failed
header read leaves the out-parameters at their incoming (requested)
values, a failed allocation happens after the out-parameters were
already overwritten with the actual JPEG dimensions, and on success the
whole `width*height` Y plane and the subsampled interleaved UV plane are
written unconditionally. -/
def convert_jpeg_to_nv12 (jpeg : JpegImage) (rgbAllocOk : Bool)
    (reqWidth reqHeight : Nat) : ConvertOut :=
  if ¬ jpeg.headerOk then
    { res := .CANON_ERROR_UNKNOWN, width := reqWidth, height := reqHeight, writes := [] }
  else if ¬ rgbAllocOk then
    { res := .CANON_ERROR_MEMORY, width := jpeg.width, height := jpeg.height, writes := [] }
  else
    { res := .CANON_SUCCESS, width := jpeg.width, height := jpeg.height
      writes := convertWriteOffsets jpeg.width jpeg.height }

/-- The queue-mutating section of one `capture_thread_func` iteration
after `canon_camera_capture_frame` succeeded (`video-source.c`): under
the lock, a full queue counts a dropped frame; a slot still `in_use` is
skipped (the incoming frame is discarded untouched); otherwise the slot
width/height are preset to the configured format, the conversion runs
into the slot, and only on conversion success are linesizes and
timestamp set and the write index / counters advanced. -/
def capture_deposit (source : video_source_t) (jpeg : JpegImage)
    (rgbAllocOk : Bool) (now : Nat) : video_source_t :=
  if FRAME_QUEUE_SIZE ≤ source.frame_count then
    { source with frames_dropped := source.frames_dropped + 1 }
  else
    let wi := qidx source.write_index
    let buffer := source.frame_queue wi
    if buffer.in_use then source
    else
      let out := convert_jpeg_to_nv12 jpeg rgbAllocOk
                   source.format.width source.format.height
      let buf1 := { buffer with width := out.width, height := out.height }
      if out.res = canon_error_t.CANON_SUCCESS then
        { source with
          frame_queue := Function.update source.frame_queue wi
            { buf1 with
              linesize0 := out.width
              linesize1 := out.width
              timestamp := now }
          write_index := (source.write_index + 1) % FRAME_QUEUE_SIZE
          frame_count := source.frame_count + 1
          frames_captured := source.frames_captured + 1
          last_frame_time := now }
      else
        { source with frame_queue := Function.update source.frame_queue wi buf1 }

/-- One interleaving step on the shared queue: a producer deposit
(`capture_thread_func`), a consumer removal (`video_source_get_frame`),
or a consumer release (`video_source_release_frame`). -/
inductive QueueOp where
  | deposit (jpeg : JpegImage) (rgbAllocOk : Bool) (now : Nat)
  | get
  | release (slot : Fin FRAME_QUEUE_SIZE)
  deriving DecidableEq, Repr

def queueStep (source : video_source_t) : QueueOp → video_source_t
  | .deposit jpeg rgbAllocOk now => capture_deposit source jpeg rgbAllocOk now
  | .get => (video_source_get_frame source).2
  | .release slot => video_source_release_frame source slot

def queueRun (source : video_source_t) (ops : List QueueOp) : video_source_t :=
  ops.foldl queueStep source

/-- Queue states reachable from a freshly started pipeline by any
interleaving of producer deposits, consumer removals and releases. -/
inductive QueueReachable (fmt : video_format_info_t) : video_source_t → Prop where
  | base : QueueReachable fmt (started_source fmt)
  | step (s : video_source_t) (op : QueueOp) :
      QueueReachable fmt s → QueueReachable fmt (queueStep s op)

/-- A 1280x720@30 NV12 format request, used as concrete configured
resolution in witnesses. -/
def fmt1280 : video_format_info_t :=
  { width := 1280, height := 720, fps := 30
    format := .VIDEO_FORMAT_NV12, frame_size := 1280 * 720 * 3 / 2 }

/-- Concrete pipeline state holding one converted 8x8 frame in slot 0. -/
def one_frame_state : video_source_t :=
  capture_deposit (started_source fmt1280) ⟨true, 8, 8⟩ true 3

/-- The frame `video_source_get_frame` hands out from
`one_frame_state`. -/
def one_frame_out : obs_source_frame :=
  { width := 8, height := 8, linesize0 := 8, linesize1 := 8
    timestamp := 3, slot := qidx 0 }

/-- Concrete interleaving of producer and consumer steps that never
releases slot 0. -/
def ops_without_release0 : List QueueOp :=
  [QueueOp.deposit ⟨true, 6, 6⟩ true 4, QueueOp.get, QueueOp.release (qidx 1)]

/-- Concrete pipeline state holding one converted 64x48 frame. -/
def small_frame_state : video_source_t :=
  capture_deposit (started_source fmt1280) ⟨true, 64, 48⟩ true 11

/-- The frame `video_source_get_frame` hands out from
`small_frame_state`. -/
def small_frame_out : obs_source_frame :=
  { width := 64, height := 48, linesize0 := 64, linesize1 := 64
    timestamp := 11, slot := qidx 0 }

/-- Every failing (negative) libgphoto2 return code maps to a non-success
plugin error. -/
theorem error_from_gphoto_ne_success {err : Int} (h : err < GP_OK) :
    error_from_gphoto err ≠ canon_error_t.CANON_SUCCESS := by
  unfold error_from_gphoto
  have : ¬ GP_OK ≤ err := not_le.mpr h
  split_ifs <;> simp_all

/-- Overwriting `in_use` with the value it already holds does not change
a frame buffer. -/
theorem frame_buffer_set_in_use_self {b : frame_buffer_t} (h : b.in_use = true) :
    { b with in_use := true } = b := by
  cases b
  simp_all

/-- A single queue step other than a release of slot `k` leaves a slot
whose `in_use` flag is set completely untouched. -/
theorem queueStep_preserves_used_slot (s : video_source_t) (op : QueueOp)
    (k : Fin FRAME_QUEUE_SIZE) (h : (s.frame_queue k).in_use = true)
    (hop : op ≠ QueueOp.release k) :
    (queueStep s op).frame_queue k = s.frame_queue k := by
  cases op with
  | deposit jpeg rgbAllocOk now =>
      show (capture_deposit s jpeg rgbAllocOk now).frame_queue k = s.frame_queue k
      simp only [capture_deposit]
      split_ifs with h1 h2 h3
      · rfl
      · rfl
      · have hne : k ≠ qidx s.write_index := by
          intro he
          rw [← he] at h2
          exact h2 h
        exact Function.update_noteq hne _ _
      · have hne : k ≠ qidx s.write_index := by
          intro he
          rw [← he] at h2
          exact h2 h
        exact Function.update_noteq hne _ _
  | get =>
      show ((video_source_get_frame s).2).frame_queue k = s.frame_queue k
      simp only [video_source_get_frame]
      split_ifs with h1 h2 h3
      all_goals try rfl
      show (Function.update s.frame_queue (qidx s.read_index) _) k = s.frame_queue k
      by_cases hk : k = qidx s.read_index
      · subst hk
        rw [Function.update_same]
        exact frame_buffer_set_in_use_self h
      · exact Function.update_noteq hk _ _
  | release slot =>
      have hne : k ≠ slot := by
        intro he
        exact hop (by rw [he])
      exact Function.update_noteq hne _ _

/-- Any interleaving of queue steps that never releases slot `k` leaves a
slot whose `in_use` flag is set completely untouched. -/
theorem queueRun_preserves_used_slot (s : video_source_t) (ops : List QueueOp)
    (k : Fin FRAME_QUEUE_SIZE) (h : (s.frame_queue k).in_use = true)
    (hops : ∀ op ∈ ops, op ≠ QueueOp.release k) :
    (queueRun s ops).frame_queue k = s.frame_queue k := by
  induction ops generalizing s with
  | nil => rfl
  | cons op ops ih =>
      have h1 := queueStep_preserves_used_slot s op k h
        (hops op (List.mem_cons_self op ops))
      have h2 : ((queueStep s op).frame_queue k).in_use = true := by
        rw [h1]; exact h
      calc (queueRun s (op :: ops)).frame_queue k
          = (queueRun (queueStep s op) ops).frame_queue k := rfl
        _ = (queueStep s op).frame_queue k :=
            ih (queueStep s op) h2 (fun o ho => hops o (List.mem_cons_of_mem _ ho))
        _ = s.frame_queue k := h1

/-- The last byte the UV loop of `convert_jpeg_to_nv12` writes in
iteration `(i2, j2)` is among the write offsets of the conversion. -/
theorem mem_uvWriteOffsets (w h i2 j2 : Nat)
    (hi : i2 < (h + 1) / 2) (hj : j2 < (w + 1) / 2) :
    w * h + i2 * w + j2 * 2 + 1 ∈ uvWriteOffsets w h := by
  unfold uvWriteOffsets
  refine List.mem_flatMap.2 ⟨i2, List.mem_range.2 hi, ?_⟩
  refine List.mem_flatMap.2 ⟨j2, List.mem_range.2 hj, ?_⟩
  simp

/-- C1: refuted — `convert_jpeg_to_nv12` performs no destination-capacity
check at all (it does not even receive the capacity of the destination).  For
a well-formed JPEG whose embedded dimensions are 6000x6000, the required
NV12 size 6000*6000*3/2 = 54000000 exceeds the destination frame slot
capacity `MAX_FRAME_SIZE` = 33177600, yet the conversion reports
`CANON_SUCCESS` and its UV loop writes byte offset 53999999, far past
the destination buffer. -/
theorem convert_jpeg_to_nv12_overflows_destination :
    (convert_jpeg_to_nv12 ⟨true, 6000, 6000⟩ true 1280 720).res
        = canon_error_t.CANON_SUCCESS
    ∧ MAX_FRAME_SIZE < nv12_required_size 6000 6000
    ∧ 53999999 ∈ (convert_jpeg_to_nv12 ⟨true, 6000, 6000⟩ true 1280 720).writes
    ∧ MAX_FRAME_SIZE ≤ 53999999 := by
  refine ⟨rfl, by norm_num [MAX_FRAME_SIZE, nv12_required_size], ?_,
    by norm_num [MAX_FRAME_SIZE]⟩
  show 53999999 ∈ convertWriteOffsets 6000 6000
  have h : (53999999 : Nat) = 6000 * 6000 + 2999 * 6000 + 2999 * 2 + 1 := by norm_num
  rw [h, convertWriteOffsets]
  exact List.mem_append_right _
    (mem_uvWriteOffsets 6000 6000 2999 2999 (by norm_num) (by norm_num))

/-- C4: when the pipeline is active (with the capture thread running and
a camera attached, as `video_source_start` guarantees), `video_source_stop`
performs, in order: lock, clear the active flag, broadcast the
frame-available condition, unlock, join the capture thread, and only
then deactivate live view; the call returns (with `active` and
`thread_running` cleared) only after the join. -/
theorem stop_event_order (s : video_source_t) :
    video_source_stop { s with active := true, thread_running := true, hasCamera := true }
      = ([stop_event.lock, stop_event.clear_active, stop_event.broadcast,
          stop_event.unlock, stop_event.join_thread, stop_event.stop_live_view],
         { s with active := false, thread_running := false, hasCamera := true }) := by
  rfl

/-- C9: `video_source_stop` and `canon_camera_disconnect` are idempotent:
stopping an already-stopped source only takes and releases the lock and
changes nothing, and disconnecting an already-disconnected session
changes nothing; hence running either operation a second time is a
no-op. -/
theorem stop_and_disconnect_idempotent (s : video_source_t) (camera : canon_camera_t) :
    (video_source_stop (video_source_stop s).2).2 = (video_source_stop s).2
    ∧ (video_source_stop (video_source_stop s).2).1 = [stop_event.lock, stop_event.unlock]
    ∧ video_source_stop { s with active := false }
        = ([stop_event.lock, stop_event.unlock], { s with active := false })
    ∧ canon_camera_disconnect (canon_camera_disconnect camera)
        = canon_camera_disconnect camera
    ∧ canon_camera_disconnect { camera with connected := false }
        = { camera with connected := false } := by
  rcases Bool.eq_false_or_eq_true s.active with hs | hs <;>
    rcases Bool.eq_false_or_eq_true camera.connected with hc | hc <;>
      refine ⟨?_, ?_, ?_, ?_, ?_⟩ <;>
        simp [video_source_stop, canon_camera_disconnect, hs, hc]

/-- C10: whenever `video_source_get_frame` succeeds, the returned frame
has nonzero width and nonzero height — the zero-dimension guard rejects
an uninitialized slot with an error before handing it out. -/
theorem get_frame_success_nonzero_dims (s : video_source_t) (f : obs_source_frame)
    (h : (video_source_get_frame s).1 = get_frame_result.ok f) :
    f.width ≠ 0 ∧ f.height ≠ 0 := by
  simp only [video_source_get_frame] at h
  split_ifs at h with h1 h2 h3
  all_goals simp_all
  obtain ⟨rfl⟩ := h
  push_neg at h3
  simpa using h3

/-- Witness for C10 at a concrete state holding one converted 64x48
frame. -/
theorem get_frame_success_nonzero_dims_witness :
    small_frame_out.width ≠ 0 ∧ small_frame_out.height ≠ 0 :=
  get_frame_success_nonzero_dims small_frame_state small_frame_out (by decide)

/-- C5: a deposited frame reports the embedded (decoded) JPEG
dimensions, whatever resolution the pipeline was configured for: from a
freshly started pipeline with any configured format, depositing a
well-formed JPEG of embedded size (w+1)x(h+1) makes `get_frame` return
a frame of exactly those dimensions; in particular a 1024x576 JPEG under
a 1280x720 configuration yields a frame reporting 1024x576. -/
theorem frame_reports_decoded_dimensions (fmt : video_format_info_t) (w h now : Nat) :
    (video_source_get_frame
        (capture_deposit (started_source fmt) ⟨true, w + 1, h + 1⟩ true now)).1
      = get_frame_result.ok
          { width := w + 1, height := h + 1, linesize0 := w + 1, linesize1 := w + 1
            timestamp := now, slot := qidx 0 }
    ∧ (video_source_get_frame
        (capture_deposit (started_source fmt1280) ⟨true, 1024, 576⟩ true now)).1
      = get_frame_result.ok
          { width := 1024, height := 576, linesize0 := 1024, linesize1 := 1024
            timestamp := now, slot := qidx 0 } := by
  exact ⟨rfl, rfl⟩

/-- C2: once `video_source_get_frame` succeeds and marks its slot
`in_use`, no interleaving of producer deposits, consumer removals and
releases of other slots ever writes that slot (the producer discards the
incoming frame instead): the entire slot contents — and its `in_use`
flag — are unchanged until a `video_source_release_frame` on that slot. -/
theorem in_use_slot_never_overwritten (s : video_source_t) (f : obs_source_frame)
    (ops : List QueueOp)
    (hok : (video_source_get_frame s).1 = get_frame_result.ok f)
    (hops : ∀ op ∈ ops, op ≠ QueueOp.release f.slot) :
    (queueRun (video_source_get_frame s).2 ops).frame_queue f.slot
        = ((video_source_get_frame s).2).frame_queue f.slot
    ∧ ((queueRun (video_source_get_frame s).2 ops).frame_queue f.slot).in_use = true := by
  have hin : (((video_source_get_frame s).2).frame_queue f.slot).in_use = true := by
    simp only [video_source_get_frame] at hok ⊢
    split_ifs at hok with h1 h2 h3
    all_goals simp_all
    obtain ⟨rfl⟩ := hok
    simp [Function.update_same]
  have hrun := queueRun_preserves_used_slot _ ops f.slot hin hops
  exact ⟨hrun, by rw [hrun]; exact hin⟩

/-- Witness for C2: from a state holding one converted frame, the frame
taken by `get_frame` survives a further deposit, a further removal and a
release of a different slot. -/
theorem in_use_slot_never_overwritten_witness :
    (queueRun (video_source_get_frame one_frame_state).2 ops_without_release0).frame_queue
        one_frame_out.slot
      = ((video_source_get_frame one_frame_state).2).frame_queue one_frame_out.slot
    ∧ ((queueRun (video_source_get_frame one_frame_state).2
          ops_without_release0).frame_queue one_frame_out.slot).in_use = true :=
  in_use_slot_never_overwritten one_frame_state one_frame_out ops_without_release0
    (by decide) (by decide)

/-- C3: in every state reachable from a freshly started pipeline by any
interleaving of producer deposits, consumer removals and releases,
`frame_count` stays within `[0, FRAME_QUEUE_SIZE]`, both indices stay
below the capacity (they advance modulo it), and
`(write_index - read_index) mod capacity = frame_count mod capacity`. -/
theorem queue_indices_invariant (fmt : video_format_info_t) (s : video_source_t)
    (hs : QueueReachable fmt s) :
    s.frame_count ≤ FRAME_QUEUE_SIZE
    ∧ s.write_index < FRAME_QUEUE_SIZE
    ∧ s.read_index < FRAME_QUEUE_SIZE
    ∧ ((s.write_index : Int) - (s.read_index : Int)) % (FRAME_QUEUE_SIZE : Int)
        = (s.frame_count : Int) % (FRAME_QUEUE_SIZE : Int) := by
  induction hs with
  | base =>
      refine ⟨?_, ?_, ?_, ?_⟩ <;>
        norm_num [started_source, video_source_init, video_source_create_state,
          FRAME_QUEUE_SIZE]
  | step s op hs ih =>
      obtain ⟨ih1, ih2, ih3, ih4⟩ := ih
      simp only [FRAME_QUEUE_SIZE] at ih1 ih2 ih3 ih4
      cases op with
      | deposit jpeg rgbAllocOk now =>
          simp only [queueStep, capture_deposit]
          split_ifs with h1 h2 h3
          all_goals try exact ⟨ih1, ih2, ih3, ih4⟩
          all_goals refine ⟨?_, ?_, ?_, ?_⟩ <;>
            simp only [FRAME_QUEUE_SIZE] at * <;> try dsimp only
          all_goals omega
      | get =>
          simp only [queueStep, video_source_get_frame]
          split_ifs with h1 h2 h3
          all_goals try exact ⟨ih1, ih2, ih3, ih4⟩
          all_goals refine ⟨?_, ?_, ?_, ?_⟩ <;>
            simp only [FRAME_QUEUE_SIZE] at * <;> try dsimp only
          all_goals omega
      | release slot =>
          exact ⟨ih1, ih2, ih3, ih4⟩

/-- Witness for C3 at the freshly started pipeline state. -/
theorem queue_indices_invariant_witness :
    (started_source fmt1280).frame_count ≤ FRAME_QUEUE_SIZE
    ∧ (started_source fmt1280).write_index < FRAME_QUEUE_SIZE
    ∧ (started_source fmt1280).read_index < FRAME_QUEUE_SIZE
    ∧ (((started_source fmt1280).write_index : Int)
          - ((started_source fmt1280).read_index : Int)) % (FRAME_QUEUE_SIZE : Int)
        = ((started_source fmt1280).frame_count : Int) % (FRAME_QUEUE_SIZE : Int) :=
  queue_indices_invariant fmt1280 (started_source fmt1280) QueueReachable.base

/-- C6: `canon_camera_capture_frame` fails with `Disconnected` when the
session is not connected, with `NotSupported` when connected but live
view is inactive, and on success (all device calls succeeding with an
image of `size` bytes) copies exactly `min size capacity` bytes —
truncating, never more than the capacity — and reports that count in
`bytes_written`. -/
theorem capture_frame_error_and_truncation (camera : canon_camera_t)
    (gp : GpCaptureRets) (cap size : Nat) :
    canon_camera_capture_frame { camera with connected := false } gp cap
        = (canon_error_t.CANON_ERROR_DISCONNECTED, none, { camera with connected := false })
    ∧ canon_camera_capture_frame
          { camera with connected := true, live_view_active := false } gp cap
        = (canon_error_t.CANON_ERROR_NOT_SUPPORTED, none,
           { camera with connected := true, live_view_active := false })
    ∧ canon_camera_capture_frame
          { camera with connected := true, live_view_active := true } ⟨0, 0, 0, size⟩ cap
        = (canon_error_t.CANON_SUCCESS, some (min size cap),
           { camera with
             connected := true
             live_view_active := true
             frame_count := camera.frame_count + 1 })
    ∧ min size cap ≤ cap := by
  refine ⟨rfl, rfl, ?_, min_le_right _ _⟩
  simp only [canon_camera_capture_frame]
  norm_num [GP_OK]
  rw [Nat.min_def]
  split_ifs <;> omega

/-- C7: `canon_camera_connect` on an already-connected session returns
`Busy` and leaves the state unchanged; and from a disconnected session
holding no handles, whatever the device call outcomes, the call either
fully succeeds (connected with all three handles held) or fails with a
non-success error leaving the session disconnected and holding no
handles — no partially-connected state and no leaked handles. -/
theorem connect_busy_and_cleanup (camera : canon_camera_t) (gp : GpConnectRets)
    (path : String) (config : canon_config_t) :
    canon_camera_connect { camera with connected := true } gp path config
        = (canon_error_t.CANON_ERROR_CAMERA_BUSY, { camera with connected := true })
    ∧ (let r := canon_camera_connect
          { camera with
            connected := false
            hasGpCamera := false
            hasAbilitiesList := false
            hasPortInfoList := false } gp path config
       (r.1 = canon_error_t.CANON_SUCCESS ∧ r.2.connected = true
          ∧ r.2.hasGpCamera = true ∧ r.2.hasAbilitiesList = true
          ∧ r.2.hasPortInfoList = true)
       ∨ (r.1 ≠ canon_error_t.CANON_SUCCESS ∧ r.2.connected = false
          ∧ r.2.hasGpCamera = false ∧ r.2.hasAbilitiesList = false
          ∧ r.2.hasPortInfoList = false)) := by
  refine ⟨rfl, ?_⟩
  show _ ∨ _
  by_cases h1 : gp.camera_new < GP_OK
  · exact Or.inr ⟨by simpa [canon_camera_connect, h1] using
      error_from_gphoto_ne_success h1, by simp [canon_camera_connect, h1]⟩
  by_cases h2 : gp.abilities_list_new < GP_OK
  · exact Or.inr ⟨by simpa [canon_camera_connect, h1, h2] using
      error_from_gphoto_ne_success h2, by simp [canon_camera_connect, h1, h2]⟩
  by_cases h3 : gp.abilities_list_load < GP_OK
  · exact Or.inr ⟨by simpa [canon_camera_connect, h1, h2, h3] using
      error_from_gphoto_ne_success h3, by simp [canon_camera_connect, h1, h2, h3]⟩
  by_cases h4 : gp.port_info_list_new < GP_OK
  · exact Or.inr ⟨by simpa [canon_camera_connect, h1, h2, h3, h4] using
      error_from_gphoto_ne_success h4, by simp [canon_camera_connect, h1, h2, h3, h4]⟩
  by_cases h5 : gp.port_info_list_load < GP_OK
  · exact Or.inr ⟨by simpa [canon_camera_connect, h1, h2, h3, h4, h5] using
      error_from_gphoto_ne_success h5,
      by simp [canon_camera_connect, h1, h2, h3, h4, h5]⟩
  by_cases h6 : gp.camera_init < GP_OK
  · exact Or.inr ⟨by simpa [canon_camera_connect, h1, h2, h3, h4, h5, h6] using
      error_from_gphoto_ne_success h6,
      by simp [canon_camera_connect, h1, h2, h3, h4, h5, h6]⟩
  · exact Or.inl (by simp [canon_camera_connect, h1, h2, h3, h4, h5, h6])

/-- C8: refuted — neither `canon_camera_connect` nor `video_source_init`
performs any range validation: a configuration of 7680x4320 (past the
3840x2160 hardware ceiling) at 120 fps (outside [24,60]) is accepted by
both with `CANON_SUCCESS`, not rejected with
`CANON_ERROR_INVALID_PARAM`. -/
theorem config_range_not_validated_counterexample :
    (canon_camera_connect canon_camera_create_state ⟨0, 0, 0, 0, 0, 0⟩ "usb:001,004"
        ⟨7680, 4320, 120, false, false⟩).1 = canon_error_t.CANON_SUCCESS
    ∧ canon_error_t.CANON_SUCCESS ≠ canon_error_t.CANON_ERROR_INVALID_PARAM
    ∧ (video_source_init video_source_create_state
        ⟨7680, 4320, 120, .VIDEO_FORMAT_NV12, 0⟩).1 = canon_error_t.CANON_SUCCESS := by
  refine ⟨rfl, by decide, rfl⟩

/-- C8 (amended): `canon_camera_connect` and `video_source_init` reject
only null arguments with an invalid-parameter error; they never validate
resolution or fps ranges — every configuration, however large its
resolution or out-of-range its fps, is accepted: connect succeeds
whenever the session is disconnected and the device steps succeed, and
init succeeds whenever the source is not active. -/
theorem config_accepted_without_validation (camera : canon_camera_t)
    (path : String) (config : canon_config_t) (source : video_source_t)
    (fmt : video_format_info_t) :
    (canon_camera_connect { camera with connected := false } ⟨0, 0, 0, 0, 0, 0⟩
        path config).1 = canon_error_t.CANON_SUCCESS
    ∧ (video_source_init { source with active := false } fmt).1
        = canon_error_t.CANON_SUCCESS := by
  exact ⟨rfl, rfl⟩

end CanonEOS
